import Mathlib

/-!
Verification of the 2D canvas rendering context core
(src/components/script/dom/canvasrenderingcontext2d.rs).

The embedding models:
  - `f64` values as `F` (finite rationals plus NaN and the two infinities;
    finite arithmetic is exact rational arithmetic, which is sufficient for
    the structural properties proved here),
  - the `geom` crate rectangles and 2x3 matrices over `Int` / `ℚ`,
  - the context object state (`Ctx`), the command protocol (`CanvasMsg`),
    and each DOM method as a pure function from state and arguments to a
    result together with the list of commands sent, using `Option` so that
    `none` models an abnormal failure (a failed `unwrap`, i.e. a panic).
External collaborators (CSS color parser, color serializer, the bytes a
channel read returns) are passed in as explicit function/value parameters.
-/

namespace Canvas2D

/-- Model of `f64`: NaN, the infinities, and finite values as exact
rationals. -/
inductive F where
  | fin (q : ℚ)
  | nan
  | inf
  | ninf
deriving DecidableEq

/-- Rust `x == 0.0` on an `f64`: true only for a finite zero (NaN and the
infinities compare unequal to zero). -/
def F.eqZero : F → Bool
  | .fin q => q == 0
  | _ => false

/-- Exact rational multiplication, written through `mkRat` so the kernel
can evaluate it on concrete inputs; `qmul_eq_mul` below shows it is the
multiplication of `ℚ`. -/
def qmul (a b : ℚ) : ℚ := mkRat (a.num * b.num) (a.den * b.den)

/-- Exact rational division, written through `Rat.divInt` so the kernel
can evaluate it on concrete inputs; `qdiv_eq_div` below shows it is the
division of `ℚ`. -/
def qdiv (a b : ℚ) : ℚ := Rat.divInt (a.num * (b.den : Int)) ((a.den : Int) * b.num)

/-- IEEE-style division on the model (signed zeros ignored): `0/0` and any
NaN operand give NaN; division by zero of a non-zero finite value gives a
signed infinity. -/
def F.div : F → F → F
  | .nan, _ => .nan
  | _, .nan => .nan
  | .fin a, .fin b =>
      if b = 0 then (if a = 0 then .nan else if 0 < a then .inf else .ninf)
      else .fin (qdiv a b)
  | .fin _, .inf => .fin 0
  | .fin _, .ninf => .fin 0
  | .inf, .fin b => if 0 ≤ b then .inf else .ninf
  | .ninf, .fin b => if 0 ≤ b then .ninf else .inf
  | .inf, .inf => .nan
  | .inf, .ninf => .nan
  | .ninf, .inf => .nan
  | .ninf, .ninf => .nan

/-- IEEE-style multiplication on the model (signed zeros and finite
overflow ignored): any NaN operand gives NaN, infinity times zero gives
NaN. -/
def F.mul : F → F → F
  | .nan, _ => .nan
  | _, .nan => .nan
  | .fin a, .fin b => .fin (qmul a b)
  | .fin a, .inf => if a = 0 then .nan else if 0 < a then .inf else .ninf
  | .fin a, .ninf => if a = 0 then .nan else if 0 < a then .ninf else .inf
  | .inf, .fin b => if b = 0 then .nan else if 0 < b then .inf else .ninf
  | .ninf, .fin b => if b = 0 then .nan else if 0 < b then .ninf else .inf
  | .inf, .inf => .inf
  | .inf, .ninf => .ninf
  | .ninf, .inf => .ninf
  | .ninf, .ninf => .inf

/-- `f64::abs`. -/
def F.abs : F → F
  | .fin q => .fin |q|
  | .nan => .nan
  | .inf => .inf
  | .ninf => .inf

/-- `ToPrimitive::to_i32` on an `f64`: truncate toward zero and fail
(`None`) when the operand is not finite or the truncation falls outside
the `i32` range. -/
def F.to_i32 : F → Option Int
  | .fin q =>
      if -2147483648 ≤ q.num.tdiv (q.den : Int) ∧
         q.num.tdiv (q.den : Int) ≤ 2147483647
      then some (q.num.tdiv (q.den : Int)) else none
  | _ => none

/-- `ToPrimitive::to_u32` on an `f64`: truncate toward zero and fail
(`None`) when the operand is not finite or the truncation falls outside
the `u32` range. -/
def F.to_u32 : F → Option Nat
  | .fin q =>
      if 0 ≤ q.num.tdiv (q.den : Int) ∧
         q.num.tdiv (q.den : Int) ≤ 4294967295
      then some (q.num.tdiv (q.den : Int)).toNat else none
  | _ => none

/-- `geom::Point2D<i32>`. -/
structure Point2Di where
  x : Int
  y : Int
deriving DecidableEq

/-- `geom::Size2D<i32>`. -/
structure Size2Di where
  width : Int
  height : Int
deriving DecidableEq

/-- `geom::Rect<i32>`. -/
structure Recti where
  origin : Point2Di
  size : Size2Di
deriving DecidableEq

def Recti.max_x (r : Recti) : Int := r.origin.x + r.size.width

def Recti.max_y (r : Recti) : Int := r.origin.y + r.size.height

/-- Modelled from the spec: the external `geom` crate rectangle overlap
test used by `Rect::intersection` (strict inequalities, so rectangles that
merely touch, and any empty rectangle, do not intersect). -/
def Recti.intersects (a b : Recti) : Bool :=
  decide (a.origin.x < b.origin.x + b.size.width) &&
  decide (b.origin.x < a.origin.x + a.size.width) &&
  decide (a.origin.y < b.origin.y + b.size.height) &&
  decide (b.origin.y < a.origin.y + a.size.height)

/-- Modelled from the spec: the external `geom` crate
`Rect::intersection`, per section 4.3 (intersect the source rectangle with
the intrinsic bounds; an empty intersection is reported as `None`). -/
def Recti.intersection (a b : Recti) : Option Recti :=
  if a.intersects b then
    some ⟨⟨max a.origin.x b.origin.x, max a.origin.y b.origin.y⟩,
          ⟨min a.max_x b.max_x - max a.origin.x b.origin.x,
           min a.max_y b.max_y - max a.origin.y b.origin.y⟩⟩
  else
    none

/-- `geom::Rect::zero()`. -/
def Recti.zero : Recti := ⟨⟨0, 0⟩, ⟨0, 0⟩⟩

/-- `is_rect_valid` (canvasrenderingcontext2d.rs line 560): origin
coordinates non-negative and size strictly positive. -/
def is_rect_valid (rect : Recti) : Bool :=
  decide (rect.origin.x ≥ 0) && decide (rect.origin.y ≥ 0) &&
  decide (rect.size.width > 0) && decide (rect.size.height > 0)

/-- The `source_width` defaulting line of `adjust_source_dest_rects`
(line 122): when `dw` was provided the call is the 8-argument shape and
the explicit `sw` is unwrapped, otherwise the intrinsic image width is
used. `none` models the `unwrap` panic. -/
def resolved_source_width (image_width : F) (sw dw : Option F) : Option F :=
  match dw with
  | some _ => sw
  | none => some image_width

/-- The `source_height` defaulting line of `adjust_source_dest_rects`
(line 127), mirroring `resolved_source_width`. -/
def resolved_source_height (image_height : F) (sh dh : Option F) : Option F :=
  match dh with
  | some _ => sh
  | none => some image_height

/-- `adjust_source_dest_rects` (canvasrenderingcontext2d.rs lines 89-176):
resolves the drawImage overload arguments to the clipped source rectangle
and scaled destination rectangle. `none` models a panic of one of the
`unwrap` calls (a missing optional argument or a failed float-to-int
conversion). -/
def adjust_source_dest_rects (image_size : Size2Di) (sx sy : F)
    (sw sh dx dy dw dh : Option F) : Option (Recti × Recti) :=
  let image_rect : Recti := ⟨⟨0, 0⟩, image_size⟩
  let image_width : F := F.fin (image_size.width : ℚ)
  let image_height : F := F.fin (image_size.height : ℚ)
  let source_x : F := match dx with | some _ => sx | none => F.fin 0
  let source_y : F := match dy with | some _ => sy | none => F.fin 0
  match resolved_source_width image_width sw dw,
        resolved_source_height image_height sh dh with
  | some source_width, some source_height =>
    let dest_x : F := dx.getD sx
    let dest_y : F := dy.getD sy
    let dest_width : F := dw.getD (sw.getD source_width)
    let dest_height : F := dh.getD (sh.getD source_height)
    match source_x.to_i32, source_y.to_i32,
          source_width.to_i32, source_height.to_i32 with
    | some sxi, some syi, some swi, some shi =>
      let source_rect : Recti := ⟨⟨sxi, syi⟩, ⟨swi, shi⟩⟩
      let source_rect_clipped : Recti :=
        (source_rect.intersection image_rect).getD Recti.zero
      let ratio_w : F :=
        F.div (F.fin (source_rect_clipped.size.width : ℚ))
              (F.fin (source_rect.size.width : ℚ))
      let ratio_h : F :=
        F.div (F.fin (source_rect_clipped.size.height : ℚ))
              (F.fin (source_rect.size.height : ℚ))
      let dest_rect_width_scaled : F := F.mul dest_width ratio_w
      let dest_rect_height_scaled : F := F.mul dest_height ratio_h
      match dest_x.to_i32, dest_y.to_i32,
            dest_rect_width_scaled.to_i32, dest_rect_height_scaled.to_i32 with
      | some dxi, some dyi, some dwi, some dhi =>
          some (source_rect_clipped, ⟨⟨dxi, dyi⟩, ⟨dwi, dhi⟩⟩)
      | _, _, _, _ => none
    | _, _, _, _ => none
  | _, _ => none

/-- `cssparser::RGBA` (f32 components modelled as exact rationals). -/
structure RGBA where
  red : ℚ
  green : ℚ
  blue : ℚ
  alpha : ℚ
deriving DecidableEq

/-- `cssparser::Color`: the parse result of a CSS color string. -/
inductive CSSColor where
  | RGBA (rgba : RGBA)
  | CurrentColor
deriving DecidableEq

/-- `parse_color` (canvasrenderingcontext2d.rs line 551): delegate to the
external CSS grammar parser (passed in as `css_parse`) and accept only the
concrete RGBA variant. `none` models the `Err(())` result. -/
def parse_color (css_parse : String → Option CSSColor) (string : String) :
    Option RGBA :=
  match css_parse string with
  | some (.RGBA rgba) => some rgba
  | _ => none

/-- `geom::Matrix2D<f32>`: a 2x3 affine matrix, components modelled as
exact rationals. -/
structure Matrix2D where
  m11 : ℚ
  m12 : ℚ
  m21 : ℚ
  m22 : ℚ
  m31 : ℚ
  m32 : ℚ
deriving DecidableEq

def Matrix2D.new (a b c d e f : ℚ) : Matrix2D := ⟨a, b, c, d, e, f⟩

def Matrix2D.identity : Matrix2D := ⟨1, 0, 0, 1, 0, 0⟩

/-- Modelled from the spec: the external `geom` crate affine composition
`self.mul(&m)` (row-vector convention, section 3 "Affine transform":
scale/translate/general linear composition). -/
def Matrix2D.mul (s m : Matrix2D) : Matrix2D :=
  ⟨m.m11 * s.m11 + m.m12 * s.m21,
   m.m11 * s.m12 + m.m12 * s.m22,
   m.m21 * s.m11 + m.m22 * s.m21,
   m.m21 * s.m12 + m.m22 * s.m22,
   m.m31 * s.m11 + m.m32 * s.m21 + s.m31,
   m.m31 * s.m12 + m.m32 * s.m22 + s.m32⟩

/-- Modelled from the spec: the external `geom` crate `Matrix2D::scale`,
composing a scaling matrix onto the current matrix (section 4.2). -/
def Matrix2D.scale (s : Matrix2D) (x y : ℚ) : Matrix2D :=
  s.mul (Matrix2D.new x 0 0 y 0 0)

/-- Modelled from the spec: the external `geom` crate
`Matrix2D::translate`, composing a translation matrix onto the current
matrix (section 4.2). -/
def Matrix2D.translate (s : Matrix2D) (x y : ℚ) : Matrix2D :=
  s.mul (Matrix2D.new 1 0 0 1 x y)

/-- `canvas_paint_task::FillOrStrokeStyle`. The gradient payloads are kept
opaque (an identifier), since only the `Color` variant matters to the
properties proved here. -/
inductive FillOrStrokeStyle where
  | Color (rgba : RGBA)
  | LinearGradient (style : Nat)
  | RadialGradient (style : Nat)
deriving DecidableEq

/-- The subset of `canvas_paint_task::CanvasMsg` exercised by the claims.
`GetImageData` carries the rectangle and canvas size; the reply channel of
the real message is modelled by the `recv_data` parameters of the methods
that perform reads. -/
inductive CanvasMsg where
  | SetTransform (m : Matrix2D)
  | SetFillStyle (style : FillOrStrokeStyle)
  | SetStrokeStyle (style : FillOrStrokeStyle)
  | DrawImage (data : List Nat) (canvas_size : Size2Di)
      (dest_rect source_rect : Recti) (smoothing : Bool)
  | DrawImageSelf (canvas_size : Size2Di)
      (dest_rect source_rect : Recti) (smoothing : Bool)
  | GetImageData (dest_rect : Recti) (canvas_size : Size2Di)
  | Close
deriving DecidableEq

/-- A sent command, tagged with the channel it went out on: the context
own renderer (`self.renderer`) or the renderer of the source canvas of a
cross-surface draw. -/
inductive Sent where
  | toSelf (msg : CanvasMsg)
  | toSource (msg : CanvasMsg)
deriving DecidableEq

/-- `dom::bindings::error::Error` (the two kinds this file raises). -/
inductive Err where
  | IndexSize
  | TypeError (msg : String)
deriving DecidableEq

/-- `Fallible<T> = Result<T, Error>`. -/
inductive Fallible (α : Type) where
  | Ok (val : α)
  | Err (e : Err)
deriving DecidableEq

/-- The state of a `CanvasRenderingContext2D` object: the identity of the
canvas element it is attached to and the four mutable cells. -/
structure Ctx where
  canvas_id : Nat
  image_smoothing_enabled : Bool
  stroke_color : RGBA
  fill_color : RGBA
  transform : Matrix2D
deriving DecidableEq

/-- What `draw_html_canvas_element` uses of an `HTMLCanvasElement`: its
identity (for the same-surface test), `is_valid()`, and `get_size()`. -/
structure CanvasElem where
  id : Nat
  valid : Bool
  size : Size2Di
deriving DecidableEq

/-- The image-argument union type
`HTMLImageElementOrHTMLCanvasElementOrCanvasRenderingContext2D`. The
context variant carries the canvas element reached through `Canvas()`. -/
inductive ImageArg where
  | eHTMLImageElement
  | eHTMLCanvasElement (canvas : CanvasElem)
  | eCanvasRenderingContext2D (canvas : CanvasElem)
deriving DecidableEq

/-- The style union type `StringOrCanvasGradientOrCanvasPattern`. The
gradient variant carries the result of `to_fill_or_stroke_style()` on the
gradient object. -/
inductive StyleArg where
  | eString (s : String)
  | eCanvasGradient (style : FillOrStrokeStyle)
  | eCanvasPattern
deriving DecidableEq

/-- `ImageData`: size plus either worker-supplied bytes or (for `none`) a
freshly zeroed buffer. -/
structure ImageDataVal where
  width : Nat
  height : Nat
  data : Option (List Nat)
deriving DecidableEq

/-- `update_transform` (line 80): send the full current matrix. -/
def update_transform (ctx : Ctx) : List Sent :=
  [.toSelf (.SetTransform ctx.transform)]

/-- `Scale` (line 262). -/
def Scale (ctx : Ctx) (x y : ℚ) : Ctx × List Sent :=
  let ctx2 := {ctx with transform := ctx.transform.scale x y}
  (ctx2, update_transform ctx2)

/-- `Translate` (line 267). -/
def Translate (ctx : Ctx) (x y : ℚ) : Ctx × List Sent :=
  let ctx2 := {ctx with transform := ctx.transform.translate x y}
  (ctx2, update_transform ctx2)

/-- `Transform` (line 272): multiply the incoming matrix onto the current
one. -/
def Transform (ctx : Ctx) (a b c d e f : ℚ) : Ctx × List Sent :=
  let ctx2 := {ctx with transform := ctx.transform.mul (Matrix2D.new a b c d e f)}
  (ctx2, update_transform ctx2)

/-- `SetTransform` (line 282): replace the matrix outright. -/
def SetTransform (ctx : Ctx) (a b c d e f : ℚ) : Ctx × List Sent :=
  let ctx2 := {ctx with transform := Matrix2D.new a b c d e f}
  (ctx2, update_transform ctx2)

/-- `SetImageSmoothingEnabled` (line 422). -/
def SetImageSmoothingEnabled (ctx : Ctx) (value : Bool) : Ctx × List Sent :=
  ({ctx with image_smoothing_enabled := value}, [])

/-- `ImageSmoothingEnabled` getter (line 417). -/
def ImageSmoothingEnabled (ctx : Ctx) : Bool :=
  ctx.image_smoothing_enabled

/-- `SetStrokeStyle` (line 435): parse the string, and on success store
the color and send it; every other case is a silent no-op. -/
def SetStrokeStyle (css_parse : String → Option CSSColor) (ctx : Ctx)
    (value : StyleArg) : Ctx × List Sent :=
  match value with
  | .eString string =>
      match parse_color css_parse string with
      | some rgba =>
          ({ctx with stroke_color := rgba},
           [.toSelf (.SetStrokeStyle (.Color rgba))])
      | none => (ctx, [])
  | _ => (ctx, [])

/-- `StrokeStyle` getter (line 426): serialize the stored stroke color
with the external `to_css` serializer. -/
def StrokeStyle (to_css : RGBA → String) (ctx : Ctx) : StyleArg :=
  .eString (to_css ctx.stroke_color)

/-- `SetFillStyle` (line 463): parse the string, and on success store the
color and send it; a gradient is converted and sent without being stored;
everything else is a silent no-op. -/
def SetFillStyle (css_parse : String → Option CSSColor) (ctx : Ctx)
    (value : StyleArg) : Ctx × List Sent :=
  match value with
  | .eString string =>
      match parse_color css_parse string with
      | some rgba =>
          ({ctx with fill_color := rgba},
           [.toSelf (.SetFillStyle (.Color rgba))])
      | none => (ctx, [])
  | .eCanvasGradient gradient =>
      (ctx, [.toSelf (.SetFillStyle gradient)])
  | .eCanvasPattern => (ctx, [])

/-- `FillStyle` getter (line 454): the source serializes
`self.stroke_color` here (not `self.fill_color`). -/
def FillStyle (to_css : RGBA → String) (ctx : Ctx) : StyleArg :=
  .eString (to_css ctx.stroke_color)

/-- `draw_html_canvas_element` (lines 199-234). `recv_data` is the byte
vector the cross-surface `GetImageData` read returns on its reply channel;
`none` models a panic inside `adjust_source_dest_rects`. -/
def draw_html_canvas_element (ctx : Ctx) (recv_data : List Nat)
    (canvas : CanvasElem) (sx sy : F) (sw sh dx dy dw dh : Option F) :
    Option (Fallible Unit × List Sent) :=
  if !canvas.valid then some (.Ok (), [])
  else
    match adjust_source_dest_rects canvas.size sx sy sw sh dx dy dw dh with
    | none => none
    | some (source_rect, dest_rect) =>
      if !is_rect_valid source_rect || !is_rect_valid dest_rect then
        some (.Err .IndexSize, [])
      else if ctx.canvas_id == canvas.id then
        some (.Ok (),
          [.toSelf (.DrawImageSelf canvas.size dest_rect source_rect
                      ctx.image_smoothing_enabled)])
      else
        some (.Ok (),
          [.toSource (.GetImageData source_rect canvas.size),
           .toSelf (.DrawImage recv_data canvas.size dest_rect source_rect
                      ctx.image_smoothing_enabled)])

/-- `DrawImage`, the 3-argument overload (line 320). -/
def DrawImage (ctx : Ctx) (recv_data : List Nat) (image : ImageArg)
    (dx dy : F) : Option (Fallible Unit × List Sent) :=
  match image with
  | .eHTMLCanvasElement canvas =>
      draw_html_canvas_element ctx recv_data canvas dx dy
        none none none none none none
  | .eCanvasRenderingContext2D canvas =>
      draw_html_canvas_element ctx recv_data canvas dx dy
        none none none none none none
  | .eHTMLImageElement =>
      some (.Err (.TypeError "Unknown type"), [])

/-- `DrawImage_`, the 5-argument overload (line 344). Note the
`eCanvasRenderingContext2D` branch of the source passes `None` for the
size arguments, exactly as the 3-argument overload does. -/
def DrawImage_ (ctx : Ctx) (recv_data : List Nat) (image : ImageArg)
    (dx dy dw dh : F) : Option (Fallible Unit × List Sent) :=
  match image with
  | .eHTMLCanvasElement canvas =>
      draw_html_canvas_element ctx recv_data canvas dx dy
        (some dw) (some dh) none none none none
  | .eCanvasRenderingContext2D canvas =>
      draw_html_canvas_element ctx recv_data canvas dx dy
        none none none none none none
  | .eHTMLImageElement =>
      some (.Err (.TypeError "Unknown type"), [])

/-- `DrawImage__`, the 9-argument overload (line 368). -/
def DrawImage__ (ctx : Ctx) (recv_data : List Nat) (image : ImageArg)
    (sx sy sw sh dx dy dw dh : F) : Option (Fallible Unit × List Sent) :=
  match image with
  | .eHTMLCanvasElement canvas =>
      draw_html_canvas_element ctx recv_data canvas sx sy
        (some sw) (some sh) (some dx) (some dy) (some dw) (some dh)
  | .eCanvasRenderingContext2D canvas =>
      draw_html_canvas_element ctx recv_data canvas sx sy
        (some sw) (some sh) (some dx) (some dy) (some dw) (some dh)
  | .eHTMLImageElement =>
      some (.Err (.TypeError "Unknown type"), [])

/-- `CreateImageData` (line 483): reject a zero dimension with IndexSize,
otherwise build an empty-initialized buffer of the truncated absolute
size. `none` models the `to_u32().unwrap()` panic. -/
def CreateImageData (sw sh : F) : Option (Fallible ImageDataVal) :=
  if sw.eqZero || sh.eqZero then some (.Err .IndexSize)
  else
    match (sw.abs).to_u32, (sh.abs).to_u32 with
    | some w, some h => some (.Ok ⟨w, h, none⟩)
    | _, _ => none

/-- `GetImageData` (line 495): reject a zero dimension with IndexSize,
otherwise send one blocking read for the sign-preserving truncated
rectangle and wrap the received bytes into an ImageData of the truncated
absolute size. `canvas_size` is `self.canvas.get_size()` and `recv_data`
the bytes the reply channel returns; `none` models a failed `unwrap` of a
float-to-int conversion. -/
def GetImageData (canvas_size : Size2Di) (recv_data : List Nat)
    (sx sy sw sh : F) : Option (Fallible ImageDataVal × List Sent) :=
  if sw.eqZero || sh.eqZero then some (.Err .IndexSize, [])
  else
    match sx.to_i32, sy.to_i32, sw.to_i32, sh.to_i32 with
    | some sxi, some syi, some swi, some shi =>
      let dest_rect : Recti := ⟨⟨sxi, syi⟩, ⟨swi, shi⟩⟩
      match (sw.abs).to_u32, (sh.abs).to_u32 with
      | some w, some h =>
          some (.Ok ⟨w, h, some recv_data⟩,
                [.toSelf (.GetImageData dest_rect canvas_size)])
      | _, _ => none
    | _, _, _, _ => none

/-- A sample context: attached to canvas id 7, defaults as `new_inherited`
sets them except for a red stroke color, so that stroke and fill colors
differ. -/
def sample_ctx : Ctx :=
  ⟨7, true, ⟨1, 0, 0, 1⟩, ⟨0, 0, 0, 1⟩, Matrix2D.identity⟩

/-- A valid 100x50 canvas with the same identity as `sample_ctx`. -/
def sample_canvas : CanvasElem := ⟨7, true, ⟨100, 50⟩⟩

/-- A valid 100x50 canvas distinct from the canvas of `sample_ctx`. -/
def other_canvas : CanvasElem := ⟨3, true, ⟨100, 50⟩⟩

theorem qmul_eq_mul (a b : ℚ) : qmul a b = a * b := by
  rw [qmul, Rat.mkRat_eq_divInt]
  conv_rhs => rw [← Rat.num_divInt_den a, ← Rat.num_divInt_den b]
  rw [Rat.divInt_mul_divInt']
  push_cast
  ring_nf

theorem qdiv_eq_div (a b : ℚ) : qdiv a b = a / b := by
  rw [qdiv]
  conv_rhs => rw [← Rat.num_divInt_den a, ← Rat.num_divInt_den b]
  rw [Rat.divInt_div_divInt]

theorem F.mul_nan (x : F) : F.mul x F.nan = F.nan := by
  cases x <;> rfl

/-- A sample external CSS parser: accepts exactly "blue" and "red". -/
def sample_css_parse : String → Option CSSColor := fun s =>
  if s = "blue" then some (.RGBA ⟨0, 0, 1, 1⟩)
  else if s = "red" then some (.RGBA ⟨1, 0, 0, 1⟩)
  else none

/-- A sample external color serializer that distinguishes the two sample
colors. -/
def sample_to_css : RGBA → String := fun c =>
  if c.blue = 1 then "serialized-blue" else "serialized-red"

/-- C1. The claim states that the 5-argument drawImage overload resolves
the destination rectangle to (dx, dy, dw, dh) for both accepted image
variants. The code does so only for the canvas-element variant: the
2D-context branch of `DrawImage_` passes `None` for the size arguments,
so with a 100x50 source and arguments (10, 20, 40, 30) the emitted
destination rectangle is (10, 20, 100, 50), not (10, 20, 40, 30), while
the canvas-element variant with the same arguments emits (10, 20, 40, 30)
as specified. -/
theorem c1_five_arg_context_variant_drops_dest_size :
    DrawImage_ sample_ctx [] (.eCanvasRenderingContext2D sample_canvas)
        (.fin 10) (.fin 20) (.fin 40) (.fin 30)
      = some (.Ok (),
          [.toSelf (.DrawImageSelf ⟨100, 50⟩ ⟨⟨10, 20⟩, ⟨100, 50⟩⟩
                      ⟨⟨0, 0⟩, ⟨100, 50⟩⟩ true)]) ∧
    (Recti.mk ⟨10, 20⟩ ⟨100, 50⟩ ≠ Recti.mk ⟨10, 20⟩ ⟨40, 30⟩) ∧
    DrawImage_ sample_ctx [] (.eHTMLCanvasElement sample_canvas)
        (.fin 10) (.fin 20) (.fin 40) (.fin 30)
      = some (.Ok (),
          [.toSelf (.DrawImageSelf ⟨100, 50⟩ ⟨⟨10, 20⟩, ⟨40, 30⟩⟩
                      ⟨⟨0, 0⟩, ⟨100, 50⟩⟩ true)]) := by
  decide

/-- C8. Every drawImage overload rejects the HTMLImageElement variant of
the image union with a TypeError carrying "Unknown type" and sends no
command on any channel. -/
theorem c8_image_element_variant_type_error (ctx : Ctx)
    (recv_data : List Nat) (sx sy sw sh dx dy dw dh : F) :
    DrawImage ctx recv_data .eHTMLImageElement dx dy
      = some (.Err (.TypeError "Unknown type"), []) ∧
    DrawImage_ ctx recv_data .eHTMLImageElement dx dy dw dh
      = some (.Err (.TypeError "Unknown type"), []) ∧
    DrawImage__ ctx recv_data .eHTMLImageElement sx sy sw sh dx dy dw dh
      = some (.Err (.TypeError "Unknown type"), []) :=
  ⟨rfl, rfl, rfl⟩

/-- C9. There are non-zero width arguments (NaN, and 2^40, which exceeds
the 32-bit range) that pass the zero-dimension check of `getImageData`
and `createImageData` but make the subsequent float-to-int conversion
return no value, so the operation fails abnormally (`none`, a failed
unwrap) instead of completing with a result or a validation error. -/
theorem c9_non_finite_dimensions_panic :
    (F.eqZero F.nan = false ∧ F.eqZero (F.fin 1099511627776) = false) ∧
    CreateImageData F.nan (F.fin 10) = none ∧
    CreateImageData (F.fin 1099511627776) (F.fin 10) = none ∧
    GetImageData ⟨100, 50⟩ [] (F.fin 0) (F.fin 0) F.nan (F.fin 10) = none ∧
    GetImageData ⟨100, 50⟩ [] (F.fin 0) (F.fin 0) (F.fin 1099511627776)
      (F.fin 10) = none := by
  decide

/-- C6. Each of scale, translate, transform and setTransform first
updates the stored matrix (transform composes the incoming matrix onto
the current one, setTransform replaces it outright, scale and translate
compose onto the current matrix) and then emits exactly one SetTransform
command carrying the full resulting matrix. -/
theorem c6_transform_ops_send_resulting_matrix (ctx : Ctx)
    (a b c d e f x y : ℚ) :
    ((Scale ctx x y).1.transform = ctx.transform.scale x y ∧
     (Scale ctx x y).2
       = [.toSelf (.SetTransform (Scale ctx x y).1.transform)]) ∧
    ((Translate ctx x y).1.transform = ctx.transform.translate x y ∧
     (Translate ctx x y).2
       = [.toSelf (.SetTransform (Translate ctx x y).1.transform)]) ∧
    ((Transform ctx a b c d e f).1.transform
       = ctx.transform.mul (Matrix2D.new a b c d e f) ∧
     (Transform ctx a b c d e f).2
       = [.toSelf (.SetTransform (Transform ctx a b c d e f).1.transform)]) ∧
    ((SetTransform ctx a b c d e f).1.transform = Matrix2D.new a b c d e f ∧
     (SetTransform ctx a b c d e f).2
       = [.toSelf (.SetTransform (SetTransform ctx a b c d e f).1.transform)]) :=
  ⟨⟨rfl, rfl⟩, ⟨rfl, rfl⟩, ⟨rfl, rfl⟩, ⟨rfl, rfl⟩⟩

/-- C7. A string that fails CSS color parsing makes the fillStyle and
strokeStyle setters complete with the state fully unchanged and no
command sent. -/
theorem c7_unparsable_color_silent_noop
    (css_parse : String → Option CSSColor) (ctx : Ctx) (s : String)
    (h : parse_color css_parse s = none) :
    SetFillStyle css_parse ctx (.eString s) = (ctx, []) ∧
    SetStrokeStyle css_parse ctx (.eString s) = (ctx, []) := by
  constructor <;> simp [SetFillStyle, SetStrokeStyle, h]

/-- Witness for C7 at a concrete rejecting parser and input string. -/
theorem c7_unparsable_color_silent_noop_witness :
    parse_color (fun _ => none) "not-a-color" = none ∧
    SetFillStyle (fun _ => none) sample_ctx (.eString "not-a-color")
      = (sample_ctx, []) ∧
    SetStrokeStyle (fun _ => none) sample_ctx (.eString "not-a-color")
      = (sample_ctx, []) :=
  ⟨rfl,
   (c7_unparsable_color_silent_noop (fun _ => none) sample_ctx
      "not-a-color" rfl).1,
   (c7_unparsable_color_silent_noop (fun _ => none) sample_ctx
      "not-a-color" rfl).2⟩

/-- C4. The claim states that set-then-get round-trips through the
last-accepted color of the matching property. The stroke half holds, but
the fillStyle getter of the source serializes `self.stroke_color`: after
`SetFillStyle` accepts "blue" (stored in `fill_color`), reading back
fillStyle yields the serialization of the stroke color (here "red"), not
of the stored fill color. -/
theorem c4_fill_style_read_back_uses_stroke_color :
    parse_color sample_css_parse "blue" = some ⟨0, 0, 1, 1⟩ ∧
    (SetFillStyle sample_css_parse sample_ctx (.eString "blue")).1.fill_color
      = ⟨0, 0, 1, 1⟩ ∧
    FillStyle sample_to_css
        (SetFillStyle sample_css_parse sample_ctx (.eString "blue")).1
      = .eString (sample_to_css sample_ctx.stroke_color) ∧
    FillStyle sample_to_css
        (SetFillStyle sample_css_parse sample_ctx (.eString "blue")).1
      ≠ .eString (sample_to_css ⟨0, 0, 1, 1⟩) ∧
    StrokeStyle sample_to_css
        (SetStrokeStyle sample_css_parse sample_ctx (.eString "blue")).1
      = .eString (sample_to_css ⟨0, 0, 1, 1⟩) := by
  decide

/-- C3. On a usable (valid) source canvas, whenever rectangle resolution
completes and the clipped source rectangle or the final destination
rectangle fails the validity invariant, drawImage returns an IndexSize
error and sends no command on any channel (in particular no read is
issued against the renderer of the source canvas). -/
theorem c3_invalid_rects_index_size_no_commands (ctx : Ctx)
    (recv_data : List Nat) (canvas : CanvasElem) (sx sy : F)
    (sw sh dx dy dw dh : Option F) (source_rect dest_rect : Recti)
    (hvalid : canvas.valid = true)
    (hadj : adjust_source_dest_rects canvas.size sx sy sw sh dx dy dw dh
              = some (source_rect, dest_rect))
    (hbad : is_rect_valid source_rect = false ∨
            is_rect_valid dest_rect = false) :
    draw_html_canvas_element ctx recv_data canvas sx sy sw sh dx dy dw dh
      = some (.Err .IndexSize, []) := by
  unfold draw_html_canvas_element
  rw [hvalid, hadj]
  rcases hbad with h | h <;> simp [h]

/-- Witness for C3: a destination width of -5 makes the destination
rectangle invalid, and the call returns IndexSize with an empty trace. -/
theorem c3_invalid_rects_index_size_no_commands_witness :
    other_canvas.valid = true ∧
    adjust_source_dest_rects other_canvas.size (F.fin 0) (F.fin 0)
        (some (F.fin 10)) (some (F.fin 10)) (some (F.fin 0))
        (some (F.fin 0)) (some (F.fin (-5))) (some (F.fin 10))
      = some (⟨⟨0, 0⟩, ⟨10, 10⟩⟩, ⟨⟨0, 0⟩, ⟨-5, 10⟩⟩) ∧
    is_rect_valid ⟨⟨0, 0⟩, ⟨-5, 10⟩⟩ = false ∧
    draw_html_canvas_element sample_ctx [] other_canvas (F.fin 0) (F.fin 0)
        (some (F.fin 10)) (some (F.fin 10)) (some (F.fin 0))
        (some (F.fin 0)) (some (F.fin (-5))) (some (F.fin 10))
      = some (.Err .IndexSize, []) :=
  ⟨by decide, by decide, by decide,
   c3_invalid_rects_index_size_no_commands sample_ctx [] other_canvas
     (F.fin 0) (F.fin 0) (some (F.fin 10)) (some (F.fin 10))
     (some (F.fin 0)) (some (F.fin 0)) (some (F.fin (-5)))
     (some (F.fin 10)) ⟨⟨0, 0⟩, ⟨10, 10⟩⟩ ⟨⟨0, 0⟩, ⟨-5, 10⟩⟩
     (by decide) (by decide) (Or.inr (by decide))⟩

/-- C10. Setting imageSmoothingEnabled changes only the smoothing flag
and sends nothing; the flag reaches the worker only as the final field of
a DrawImageSelf or DrawImage command emitted by a later draw call. -/
theorem c10_smoothing_flag_local_until_draw (ctx : Ctx) (value : Bool) :
    (SetImageSmoothingEnabled ctx value
       = ({ctx with image_smoothing_enabled := value}, [])) ∧
    ((SetImageSmoothingEnabled ctx value).1.transform = ctx.transform ∧
     (SetImageSmoothingEnabled ctx value).1.fill_color = ctx.fill_color ∧
     (SetImageSmoothingEnabled ctx value).1.stroke_color = ctx.stroke_color ∧
     (SetImageSmoothingEnabled ctx value).1.image_smoothing_enabled = value ∧
     (SetImageSmoothingEnabled ctx value).2 = []) ∧
    (∀ recv_data canvas sx sy sw sh dx dy dw dh tr,
      draw_html_canvas_element ctx recv_data canvas sx sy sw sh dx dy dw dh
        = some (.Ok (), tr) →
      tr = [] ∨
      (∃ sr dr, tr = [.toSelf (.DrawImageSelf canvas.size dr sr
                        ctx.image_smoothing_enabled)]) ∨
      (∃ sr dr, tr = [.toSource (.GetImageData sr canvas.size),
                      .toSelf (.DrawImage recv_data canvas.size dr sr
                        ctx.image_smoothing_enabled)])) := by
  refine ⟨rfl, ⟨rfl, rfl, rfl, rfl, rfl⟩, ?_⟩
  intro recv_data canvas sx sy sw sh dx dy dw dh tr h
  unfold draw_html_canvas_element at h
  split at h
  · left
    simpa using h.symm
  · split at h
    · exact absurd h (by simp)
    · rename_i sr dr heq2
      clear heq2
      split at h
      · simp at h
      · split at h
        · right; left
          exact ⟨sr, dr, by simpa using h.symm⟩
        · right; right
          exact ⟨sr, dr, by simpa using h.symm⟩

/-- Witness for C10 at a concrete same-surface draw call: the trace is a
single DrawImageSelf carrying the stored smoothing flag. -/
theorem c10_smoothing_flag_local_until_draw_witness :
    SetImageSmoothingEnabled sample_ctx false
      = ({sample_ctx with image_smoothing_enabled := false}, []) ∧
    draw_html_canvas_element sample_ctx [] sample_canvas (F.fin 10)
        (F.fin 20) (some (F.fin 40)) (some (F.fin 30)) none none none none
      = some (.Ok (),
          [.toSelf (.DrawImageSelf ⟨100, 50⟩ ⟨⟨10, 20⟩, ⟨40, 30⟩⟩
                      ⟨⟨0, 0⟩, ⟨100, 50⟩⟩ true)]) ∧
    ([Sent.toSelf (CanvasMsg.DrawImageSelf ⟨100, 50⟩ ⟨⟨10, 20⟩, ⟨40, 30⟩⟩
        ⟨⟨0, 0⟩, ⟨100, 50⟩⟩ true)] = [] ∨
     (∃ sr dr,
        [Sent.toSelf (CanvasMsg.DrawImageSelf ⟨100, 50⟩ ⟨⟨10, 20⟩, ⟨40, 30⟩⟩
           ⟨⟨0, 0⟩, ⟨100, 50⟩⟩ true)]
          = [.toSelf (.DrawImageSelf sample_canvas.size dr sr
                        sample_ctx.image_smoothing_enabled)]) ∨
     (∃ sr dr,
        [Sent.toSelf (CanvasMsg.DrawImageSelf ⟨100, 50⟩ ⟨⟨10, 20⟩, ⟨40, 30⟩⟩
           ⟨⟨0, 0⟩, ⟨100, 50⟩⟩ true)]
          = [.toSource (.GetImageData sr sample_canvas.size),
             .toSelf (.DrawImage [] sample_canvas.size dr sr
                        sample_ctx.image_smoothing_enabled)])) :=
  ⟨(c10_smoothing_flag_local_until_draw sample_ctx false).1, by decide,
   (c10_smoothing_flag_local_until_draw sample_ctx false).2.2 []
     sample_canvas (F.fin 10) (F.fin 20) (some (F.fin 40))
     (some (F.fin 30)) none none none none
     [Sent.toSelf (CanvasMsg.DrawImageSelf ⟨100, 50⟩ ⟨⟨10, 20⟩, ⟨40, 30⟩⟩
        ⟨⟨0, 0⟩, ⟨100, 50⟩⟩ true)] (by decide)⟩

theorem abs_num (q : ℚ) : (|q|).num = |q.num| ∧ (|q|).den = q.den := by
  rcases abs_cases q with ⟨he, hge⟩ | ⟨he, hlt⟩
  · rw [he, abs_of_nonneg (Rat.num_nonneg.2 hge)]
    exact ⟨rfl, rfl⟩
  · have hn : q.num < 0 :=
      lt_of_not_ge fun h0 => absurd (Rat.num_nonneg.1 h0) (not_le.2 hlt)
    rw [he, Rat.neg_num, Rat.neg_den, abs_of_neg hn]
    exact ⟨rfl, rfl⟩

/-- A successful sign-preserving `to_i32` truncation makes the
`abs`-then-`to_u32` path succeed with the absolute value of the same
integer. -/
theorem abs_to_u32_of_to_i32 {f : F} {c : Int} (h : f.to_i32 = some c) :
    (F.abs f).to_u32 = some c.natAbs := by
  cases f with
  | nan => simp [F.to_i32] at h
  | inf => simp [F.to_i32] at h
  | ninf => simp [F.to_i32] at h
  | fin q =>
    rw [F.to_i32] at h
    by_cases hr : -2147483648 ≤ q.num.tdiv (q.den : Int) ∧
        q.num.tdiv (q.den : Int) ≤ 2147483647
    · rw [if_pos hr] at h
      obtain rfl := Option.some.inj h
      show F.to_u32 (F.fin |q|) = _
      obtain ⟨hnum, hden⟩ := abs_num q
      rw [F.to_u32, hnum, hden]
      have habs : |q.num|.tdiv (q.den : Int)
          = ((q.num.tdiv (q.den : Int)).natAbs : Int) := by
        rw [Int.abs_eq_natAbs, Int.natAbs_tdiv]
        rfl
      rw [habs, if_pos]
      · simp
      · refine ⟨Int.natCast_nonneg _, ?_⟩
        obtain ⟨h1, h2⟩ := hr
        generalize q.num.tdiv (q.den : Int) = t at h1 h2 ⊢
        omega
    · rw [if_neg hr] at h
      exact absurd h (by simp)

theorem F.eqZero_eq_true_iff (f : F) : f.eqZero = true ↔ f = F.fin 0 := by
  cases f <;> simp [F.eqZero]

/-- C5. getImageData returns IndexSize exactly when sw or sh equals zero;
every normally completing call issues exactly one GetImageData read whose
rectangle carries the sign-preserving truncations of sx, sy, sw, sh,
while the returned ImageData is sized with the absolute values of the
truncated sw and sh, so the two disagree whenever a truncated dimension
is negative. -/
theorem c5_get_image_data_contract (canvas_size : Size2Di)
    (recv_data : List Nat) (sx sy sw sh : F) :
    ((sw = F.fin 0 ∨ sh = F.fin 0) ↔
      GetImageData canvas_size recv_data sx sy sw sh
        = some (.Err .IndexSize, [])) ∧
    (∀ res tr,
      GetImageData canvas_size recv_data sx sy sw sh = some (.Ok res, tr) →
      ∃ a b c d, sx.to_i32 = some a ∧ sy.to_i32 = some b ∧
        sw.to_i32 = some c ∧ sh.to_i32 = some d ∧
        tr = [.toSelf (.GetImageData ⟨⟨a, b⟩, ⟨c, d⟩⟩ canvas_size)] ∧
        res = ⟨c.natAbs, d.natAbs, some recv_data⟩ ∧
        (c < 0 → (res.width : Int) ≠ c) ∧
        (d < 0 → (res.height : Int) ≠ d)) := by
  constructor
  · constructor
    · intro h
      have hz : (sw.eqZero || sh.eqZero) = true := by
        rcases h with rfl | rfl <;> simp [F.eqZero]
      unfold GetImageData
      rw [if_pos hz]
    · intro h
      by_cases hz : (sw.eqZero || sh.eqZero) = true
      · rcases (Bool.or_eq_true _ _).mp hz with h1 | h1
        · exact Or.inl ((F.eqZero_eq_true_iff sw).mp h1)
        · exact Or.inr ((F.eqZero_eq_true_iff sh).mp h1)
      · exfalso
        unfold GetImageData at h
        rw [if_neg hz] at h
        split at h
        · split at h
          · simp at h
          · simp at h
        · simp at h
  · intro res tr h
    by_cases hz : (sw.eqZero || sh.eqZero) = true
    · unfold GetImageData at h
      rw [if_pos hz] at h
      simp at h
    · unfold GetImageData at h
      rw [if_neg hz] at h
      split at h
      · rename_i a b c d heqa heqb heqc heqd
        split at h
        · rename_i w hght heqw heqh
          obtain ⟨hres, htr⟩ := Prod.mk.injEq _ _ _ _ ▸ Option.some.inj h
          have hw : w = c.natAbs := by
            have := abs_to_u32_of_to_i32 heqc
            rw [heqw] at this
            exact Option.some.inj this
          have hh : hght = d.natAbs := by
            have := abs_to_u32_of_to_i32 heqd
            rw [heqh] at this
            exact Option.some.inj this
          refine ⟨a, b, c, d, heqa, heqb, heqc, heqd, htr.symm, ?_, ?_, ?_⟩
          · have : res = ImageDataVal.mk w hght (some recv_data) :=
              (Fallible.Ok.injEq _ _ ▸ hres).symm
            rw [this, hw, hh]
          · intro hc
            have hres2 : res.width = c.natAbs := by
              have : res = ImageDataVal.mk w hght (some recv_data) :=
                (Fallible.Ok.injEq _ _ ▸ hres).symm
              rw [this, hw]
            rw [hres2]
            omega
          · intro hd
            have hres2 : res.height = d.natAbs := by
              have : res = ImageDataVal.mk w hght (some recv_data) :=
                (Fallible.Ok.injEq _ _ ▸ hres).symm
              rw [this, hh]
            rw [hres2]
            omega
        · simp at h
      · simp at h

/-- Witness for C5: a call with sw = -3, sh = 2 reads the ( -3, 2 )-sized
rectangle but returns a 3-by-2 ImageData, and a call with sw = 0 returns
IndexSize. -/
theorem c5_get_image_data_contract_witness :
    GetImageData ⟨100, 50⟩ [1, 2] (F.fin 0) (F.fin 0) (F.fin (-3)) (F.fin 2)
      = some (.Ok ⟨3, 2, some [1, 2]⟩,
          [.toSelf (.GetImageData ⟨⟨0, 0⟩, ⟨-3, 2⟩⟩ ⟨100, 50⟩)]) ∧
    (∃ a b c d, (F.fin 0).to_i32 = some a ∧ (F.fin 0).to_i32 = some b ∧
      (F.fin (-3)).to_i32 = some c ∧ (F.fin 2).to_i32 = some d ∧
      [Sent.toSelf (CanvasMsg.GetImageData ⟨⟨0, 0⟩, ⟨-3, 2⟩⟩ ⟨100, 50⟩)]
        = [.toSelf (.GetImageData ⟨⟨a, b⟩, ⟨c, d⟩⟩ ⟨100, 50⟩)] ∧
      ImageDataVal.mk 3 2 (some [1, 2]) = ⟨c.natAbs, d.natAbs, some [1, 2]⟩ ∧
      (c < 0 → ((ImageDataVal.mk 3 2 (some [1, 2])).width : Int) ≠ c) ∧
      (d < 0 → ((ImageDataVal.mk 3 2 (some [1, 2])).height : Int) ≠ d)) ∧
    GetImageData ⟨100, 50⟩ [1, 2] (F.fin 0) (F.fin 0) (F.fin 0) (F.fin 2)
      = some (.Err .IndexSize, []) :=
  ⟨by decide,
   (c5_get_image_data_contract ⟨100, 50⟩ [1, 2] (F.fin 0) (F.fin 0)
      (F.fin (-3)) (F.fin 2)).2 ⟨3, 2, some [1, 2]⟩
      [Sent.toSelf (CanvasMsg.GetImageData ⟨⟨0, 0⟩, ⟨-3, 2⟩⟩ ⟨100, 50⟩)]
      (by decide),
   (c5_get_image_data_contract ⟨100, 50⟩ [1, 2] (F.fin 0) (F.fin 0)
      (F.fin 0) (F.fin 2)).1.mp (Or.inl rfl)⟩

/-- An empty source rectangle clips to a rectangle of width zero. -/
theorem inter_width_zero (a b : Recti) (h : a.size.width = 0) :
    ((a.intersection b).getD Recti.zero).size.width = 0 := by
  unfold Recti.intersection
  by_cases hi : a.intersects b = true
  · rw [if_pos hi]
    unfold Recti.intersects at hi
    simp only [Bool.and_eq_true, decide_eq_true_eq] at hi
    obtain ⟨⟨⟨h1, h2⟩, h3⟩, h4⟩ := hi
    show min a.max_x b.max_x - max a.origin.x b.origin.x = 0
    unfold Recti.max_x
    omega
  · rw [if_neg hi]
    rfl

/-- An empty source rectangle clips to a rectangle of height zero. -/
theorem inter_height_zero (a b : Recti) (h : a.size.height = 0) :
    ((a.intersection b).getD Recti.zero).size.height = 0 := by
  unfold Recti.intersection
  by_cases hi : a.intersects b = true
  · rw [if_pos hi]
    unfold Recti.intersects at hi
    simp only [Bool.and_eq_true, decide_eq_true_eq] at hi
    obtain ⟨⟨⟨h1, h2⟩, h3⟩, h4⟩ := hi
    show min a.max_y b.max_y - max a.origin.y b.origin.y = 0
    unfold Recti.max_y
    omega
  · rw [if_neg hi]
    rfl

/-- C2 counterexample. The ratio division of the source is not guarded:
a drawImage call on a usable 100x50 canvas with source width 0 (here the
9-argument overload with sw = 0) makes the width-ratio the unguarded 0/0,
the scaled destination width NaN, and the following float-to-int unwrap
fail, so the call fails abnormally (`none`) instead of completing with a
normal result or a validation error as the claim states. -/
theorem c2_division_guard_counterexample :
    DrawImage__ sample_ctx [] (.eHTMLCanvasElement sample_canvas)
      (F.fin 0) (F.fin 0) (F.fin 0) (F.fin 10)
      (F.fin 0) (F.fin 0) (F.fin 10) (F.fin 10) = none := by
  decide

/-- C2 as amended. Whenever the resolved (unclipped) source width
(respectively height) truncates to the integer 0, the width-ratio
(respectively height-ratio) is an unguarded 0/0 division yielding NaN, so
rectangle resolution always panics (yields no value): the division is not
guarded and the ratio is never defined as 0. -/
theorem c2_zero_source_dimension_resolution_panics
    (image_size : Size2Di) (sx sy : F)
    (sw sh dx dy dw dh : Option F) (w : F)
    (h : (resolved_source_width (F.fin (image_size.width : ℚ)) sw dw
            = some w ∧ w.to_i32 = some 0) ∨
         (resolved_source_height (F.fin (image_size.height : ℚ)) sh dh
            = some w ∧ w.to_i32 = some 0)) :
    adjust_source_dest_rects image_size sx sy sw sh dx dy dw dh = none := by
  rcases h with ⟨hW, hT⟩ | ⟨hH, hT⟩
  · rcases hh : resolved_source_height (F.fin (image_size.height : ℚ)) sh dh
      with _ | sh2
    · simp [adjust_source_dest_rects, hW, hh]
    · simp only [adjust_source_dest_rects, hW, hh]
      split
      · rename_i sxi syi swi shi heq1 heq2 heq3 heq4
        obtain rfl : swi = 0 := by
          rw [hT] at heq3
          exact (Option.some.inj heq3).symm
        split
        · rename_i dxi dyi dwi dhi heqa heqb heqc heqd
          exfalso
          rw [inter_width_zero _ _ rfl] at heqc
          simp [F.div, F.mul_nan, F.to_i32] at heqc
        · rfl
      · rfl
  · rcases hw2 : resolved_source_width (F.fin (image_size.width : ℚ)) sw dw
      with _ | sw2
    · simp [adjust_source_dest_rects, hH, hw2]
    · simp only [adjust_source_dest_rects, hH, hw2]
      split
      · rename_i sxi syi swi shi heq1 heq2 heq3 heq4
        obtain rfl : shi = 0 := by
          rw [hT] at heq4
          exact (Option.some.inj heq4).symm
        split
        · rename_i dxi dyi dwi dhi heqa heqb heqc heqd
          exfalso
          rw [inter_height_zero _ _ rfl] at heqd
          simp [F.div, F.mul_nan, F.to_i32] at heqd
        · rfl
      · rfl

/-- Witness for the amended C2 at source width 0 on a 100x50 image. -/
theorem c2_zero_source_dimension_resolution_panics_witness :
    (resolved_source_width (F.fin ((⟨100, 50⟩ : Size2Di).width : ℚ))
        (some (F.fin 0)) (some (F.fin 10)) = some (F.fin 0) ∧
     (F.fin 0).to_i32 = some 0) ∧
    adjust_source_dest_rects ⟨100, 50⟩ (F.fin 0) (F.fin 0) (some (F.fin 0))
      (some (F.fin 10)) (some (F.fin 0)) (some (F.fin 0)) (some (F.fin 10))
      (some (F.fin 10)) = none :=
  ⟨⟨by decide, by decide⟩,
   c2_zero_source_dimension_resolution_panics ⟨100, 50⟩ (F.fin 0) (F.fin 0)
     (some (F.fin 0)) (some (F.fin 10)) (some (F.fin 0)) (some (F.fin 0))
     (some (F.fin 10)) (some (F.fin 10)) (F.fin 0)
     (Or.inl ⟨by decide, by decide⟩)⟩

end Canvas2D
